import Mathlib

/-!
Verification development for the MQTT communication layer of raptor-common
(`raptor_common/cloud/mqtt_comms.py`), shallowly embedded in Lean.

Times are modelled as integers (seconds); the Python module uses a float
timestamp with `0` as the "never attempted" sentinel, which we keep.
Inbound MQTT payloads are modelled by their decode result: `none` stands for
a payload whose `json.loads` raises `JSONDecodeError`, `some j` for a payload
decoding to the JSON value `j`.
-/

/-- JSON values as produced by Python's `json.loads`. -/
inductive PyJson where
  | null
  | bool (b : Bool)
  | num (n : Int)
  | str (s : String)
  | arr (xs : List PyJson)
  | obj (fields : List (String × PyJson))

/-- Module-level constant `_max_backoff_seconds = 300` of `mqtt_comms.py`. -/
def _max_backoff_seconds : Int := 300

/-- Embedding of `_get_backoff_time` (mqtt_comms.py lines 25-33): 0 when the
failure counter is zero, otherwise `min(2 ** _connection_failures,
_max_backoff_seconds)`.  The global `_connection_failures` is passed
explicitly. -/
def _get_backoff_time (connection_failures : Nat) : Int :=
  if connection_failures = 0 then 0
  else min (2 ^ connection_failures) _max_backoff_seconds

/-- Embedding of `_should_attempt_connection` (lines 36-52).  The globals
`_last_connection_attempt` and `_connection_failures` are passed explicitly,
as is `current_time` (the value of `time.time()`). -/
def _should_attempt_connection (last_connection_attempt : Int)
    (connection_failures : Nat) (current_time : Int) : Bool :=
  if last_connection_attempt = 0 ∨ connection_failures = 0 then true
  else decide (current_time - last_connection_attempt ≥ _get_backoff_time connection_failures)

/-- The module-level mutable backoff state of `mqtt_comms.py`: the globals
`_last_connection_attempt` and `_connection_failures`. -/
structure BackoffState where
  last_connection_attempt : Int
  connection_failures : Nat
deriving DecidableEq

/-- Outcome of the network interaction inside `publish_payload`'s `try`
block: either the connect/publish sequence succeeds, or some exception is
raised by it (a connection or publish fault). -/
inductive PublishOutcome where
  | success
  | fault
deriving DecidableEq

/-- Embedding of `publish_payload` (lines 117-157) as a state transformer:
given the current global backoff state, the current time and the outcome the
network would produce, it returns the boolean result together with the
updated backoff state.  Faults are absorbed (the `except` clause returns
`False`), so the function is total. -/
def publish_payload (s : BackoffState) (now : Int) (outcome : PublishOutcome) :
    Bool × BackoffState :=
  if ¬ _should_attempt_connection s.last_connection_attempt s.connection_failures now then
    (false, s)
  else
    match outcome with
    | .success => (true, { last_connection_attempt := now, connection_failures := 0 })
    | .fault =>
        (false, { last_connection_attempt := now,
                  connection_failures := s.connection_failures + 1 })

/-- C2: the backoff wait time is 0 when the failure count is 0 and
`min(2^n, max_backoff)` with `max_backoff = 300` when `n > 0`; in particular
`n = 3` gives 8 and `n = 10` gives 300. -/
theorem backoff_time_spec :
    _get_backoff_time 0 = 0 ∧
    (∀ n : Nat, 0 < n → _get_backoff_time n = min (2 ^ n) 300) ∧
    _get_backoff_time 3 = 8 ∧ _get_backoff_time 10 = 300 := by
  refine ⟨rfl, ?_, by decide, by decide⟩
  intro n hn
  unfold _get_backoff_time _max_backoff_seconds
  rw [if_neg (by omega)]

/-- Witness for C2: the general clause evaluated at the concrete failure
count 5. -/
theorem backoff_time_spec_witness : _get_backoff_time 5 = min (2 ^ 5) 300 :=
  backoff_time_spec.2.1 5 (by decide)

/-- C6: `should_attempt` is true when the failure count is 0 or no attempt
was recorded, and otherwise true exactly when `now - last_attempt` is at
least the backoff time; in particular a zero failure count (the state right
after a success) makes it true regardless of the elapsed time. -/
theorem should_attempt_spec :
    (∀ last : Int, ∀ fails : Nat, ∀ now : Int,
      _should_attempt_connection last fails now = true ↔
        (last = 0 ∨ fails = 0 ∨ _get_backoff_time fails ≤ now - last)) ∧
    (∀ last now : Int, _should_attempt_connection last 0 now = true) := by
  constructor
  · intro last fails now
    unfold _should_attempt_connection
    by_cases h : last = 0 ∨ fails = 0
    · simp [h]
      tauto
    · rw [if_neg h]
      push_neg at h
      simp [h.1, h.2, ge_iff_le]
  · intro last now
    unfold _should_attempt_connection
    simp

/-- Witness for C6: at `last_attempt = 7`, `failures = 2`, `now = 12` the
characterization yields `true` (since `12 - 7 = 5 ≥ 4 = backoff(2)`). -/
theorem should_attempt_spec_witness :
    _should_attempt_connection 7 2 12 = true ∧ _should_attempt_connection 7 0 12 = true :=
  ⟨(should_attempt_spec.1 7 2 12).mpr (Or.inr (Or.inr (by decide))),
   should_attempt_spec.2 7 12⟩

/-- C4: when the backoff check allowed the attempt, a connection/publish
fault makes `publish_payload` return `false`, increment the failure count by
exactly 1 and record the attempt time; no exception reaches the caller (the
embedding is a total function into `Bool`). -/
theorem publish_fault_spec (s : BackoffState) (now : Int)
    (h : _should_attempt_connection s.last_connection_attempt s.connection_failures now = true) :
    publish_payload s now PublishOutcome.fault =
      (false, { last_connection_attempt := now,
                connection_failures := s.connection_failures + 1 }) := by
  unfold publish_payload
  rw [if_neg (by simp [h])]

/-- Witness for C4: a fault from the fresh state at time 5. -/
theorem publish_fault_spec_witness :
    publish_payload ⟨0, 0⟩ 5 PublishOutcome.fault = (false, ⟨5, 1⟩) :=
  publish_fault_spec ⟨0, 0⟩ 5 (by decide)

/-- C5: when the backoff check allowed the attempt, a successful publish
returns `true` and resets the failure count to 0, whatever its previous
value. -/
theorem publish_success_spec (s : BackoffState) (now : Int)
    (h : _should_attempt_connection s.last_connection_attempt s.connection_failures now = true) :
    publish_payload s now PublishOutcome.success =
      (true, { last_connection_attempt := now, connection_failures := 0 }) := by
  unfold publish_payload
  rw [if_neg (by simp [h])]

/-- Witness for C5: a success after 9 consecutive failures resets the
counter to 0 (the attempt is allowed because 2000 - 100 = 1900 ≥ 300). -/
theorem publish_success_spec_witness :
    publish_payload ⟨100, 9⟩ 2000 PublishOutcome.success = (true, ⟨2000, 0⟩) :=
  publish_success_spec ⟨100, 9⟩ 2000 (by decide)

/-- C9: when the backoff check forbids the attempt, `publish_payload`
returns `false` whatever the network would have done (no connection is
opened: the result does not depend on the outcome) and leaves both
components of the backoff state unchanged. -/
theorem publish_backoff_skip (s : BackoffState) (now : Int) (outcome : PublishOutcome)
    (h : _should_attempt_connection s.last_connection_attempt s.connection_failures now = false) :
    publish_payload s now outcome = (false, s) := by
  unfold publish_payload
  rw [if_pos (by simp [h])]

/-- Witness for C9: with 3 failures recorded at time 100, an attempt at time
101 is skipped (101 - 100 = 1 < 8) and the state is untouched, even for a
would-be-successful outcome. -/
theorem publish_backoff_skip_witness :
    publish_payload ⟨100, 3⟩ 101 PublishOutcome.success = (false, ⟨100, 3⟩) :=
  publish_backoff_skip ⟨100, 3⟩ 101 PublishOutcome.success (by decide)

/-- Python `dict` lookup for the field lists of a JSON object. -/
def lookupField : List (String × PyJson) → String → Option PyJson
  | [], _ => none
  | (k, v) :: rest, key => if k = key then some v else lookupField rest key

/-- Embedding of `response_data.get('action_id')` (line 95).  The outer
`Option` distinguishes the `AttributeError` raised when `response_data` is
not a dict (result `none`, caught by the generic `except` at line 106); the
inner `Option` is the value `dict.get` returns (`none` models Python
`None` for a missing key). -/
def pyGet : PyJson → String → Option (Option PyJson)
  | .obj fields, key => some (lookupField fields key)
  | _, _ => none

/-- Python `==` between a decoded JSON value and the caller's `action_id`
string: true exactly when the value is that string. -/
def pyEqStr : PyJson → String → Bool
  | .str s, a => s == a
  | _, _ => false

/-- Whether a JSON value is a Python dict (`json.loads` produced an object). -/
def isObj : PyJson → Bool
  | .obj _ => true
  | _ => false

/-- The receive loop of `send_message_and_wait_for_response` (lines 86-111)
under `asyncio.timeout(timeout_seconds)`.  Inbound messages are listed in
arrival order as `(t, p)` where `t` is the arrival offset from the start of
the receive wait and `p` the payload's decode result.  A message arriving at
or after the timeout is never delivered: the timer fires first and the call
returns `None`.  A `JSONDecodeError` (line 104) or any other processing
exception, such as the `AttributeError` from `.get` on a non-dict
(line 106), only skips the offending message. -/
def receiveLoop (timeout : Int) (action_id : String) :
    List (Int × Option PyJson) → Option PyJson
  | [] => none
  | (t, p) :: rest =>
    if timeout ≤ t then none
    else
      match p with
      | none => receiveLoop timeout action_id rest
      | some j =>
        match pyGet j "action_id" with
        | some (some v) =>
            if pyEqStr v action_id then some j else receiveLoop timeout action_id rest
        | _ => receiveLoop timeout action_id rest

/-- One run of `send_message_and_wait_for_response`: whether the
connect/subscribe/publish sequence succeeds, how long it takes (`preDur`
seconds elapse before the receive wait starts), and the inbound messages on
the response topic. -/
structure ExchangeRun where
  connectOk : Bool
  preDur : Int
  msgs : List (Int × Option PyJson)

/-- Embedding of `send_message_and_wait_for_response` (lines 55-115).  A
fault in the connect/subscribe/publish sequence is caught by the outer
`except` (line 113) and yields `None`; otherwise the result is that of the
receive loop.  The timer of `asyncio.timeout` (line 87) starts only when the
receive wait starts, after `preDur` has already elapsed. -/
def send_message_and_wait_for_response (timeout : Int) (action_id : String)
    (run : ExchangeRun) : Option PyJson :=
  if run.connectOk then receiveLoop timeout action_id run.msgs else none

/-- First inbound message the exchange accepts: a well-formed JSON object
whose `action_id` field equals the caller's correlation id. -/
def matchesAction (action_id : String) (p : Option PyJson) : Option PyJson :=
  match p with
  | none => none
  | some j =>
    match pyGet j "action_id" with
    | some (some v) => if pyEqStr v action_id then some j else none
    | _ => none

/-- The receive loop returns the first accepted message among those arriving
strictly before the timeout. -/
theorem receiveLoop_eq_findSome (timeout : Int) (action_id : String)
    (msgs : List (Int × Option PyJson)) :
    receiveLoop timeout action_id msgs =
      (msgs.takeWhile fun m => decide (m.1 < timeout)).findSome?
        (fun m => matchesAction action_id m.2) := by
  induction msgs with
  | nil => rfl
  | cons hd tl ih =>
    obtain ⟨t, p⟩ := hd
    simp only [receiveLoop, List.takeWhile_cons]
    by_cases h : timeout ≤ t
    · rw [if_pos h, if_neg (by simp [not_lt.mpr h]), List.findSome?_nil]
    · rw [if_neg h, if_pos (by simp [lt_of_not_le h]), List.findSome?_cons]
      cases p with
      | none => simpa [matchesAction] using ih
      | some j =>
        cases hg : pyGet j "action_id" with
        | none => simpa [matchesAction, hg] using ih
        | some v =>
          cases v with
          | none => simpa [matchesAction, hg] using ih
          | some w =>
            by_cases hw : pyEqStr w action_id
            · simp [matchesAction, hg, hw]
            · simpa [matchesAction, hg, hw] using ih

/-- C3: `send_and_wait` returns the first well-formed inbound message whose
`action_id` equals the caller's correlation id among those arriving within
the timeout; earlier mismatched or malformed messages are discarded, and the
result is `none` both when no match arrives before the timeout fires and
when the connect/subscribe/publish sequence faults (the embedding is a total
function into `Option`, so no exception reaches the caller). -/
theorem send_and_wait_spec (timeout : Int) (action_id : String) (run : ExchangeRun) :
    send_message_and_wait_for_response timeout action_id run =
      if run.connectOk then
        (run.msgs.takeWhile fun m => decide (m.1 < timeout)).findSome?
          (fun m => matchesAction action_id m.2)
      else none := by
  unfold send_message_and_wait_for_response
  by_cases h : run.connectOk <;> simp [h, receiveLoop_eq_findSome]

/-- The concrete run refuting C1: the connect/subscribe/publish phase takes
100 seconds, then a matching response arrives immediately. -/
def c1_run : ExchangeRun :=
  { connectOk := true, preDur := 100,
    msgs := [(0, some (PyJson.obj [("action_id", PyJson.str "abc")]))] }

/-- C1 counterexample: with `timeout = 30` the exchange whose
connect/subscribe/publish phase alone takes `preDur = 100 > 30` seconds is
not torn down at 30 seconds: it still completes and returns the response
(total elapsed time 100 > 30).  The `asyncio.timeout` block (line 87) starts
only at the receive wait, so the timeout does not bound the whole
subscribe+publish+receive sequence. -/
theorem timeout_scope_counterexample :
    send_message_and_wait_for_response 30 "abc" c1_run =
      some (PyJson.obj [("action_id", PyJson.str "abc")]) ∧
    30 < c1_run.preDur :=
  ⟨rfl, by decide⟩

/-- C1 amended: the timeout bounds only the receive phase.  Whatever time
the connect/subscribe/publish phase takes, the result is unchanged (that
phase is not bounded by the timeout), and when every inbound message arrives
at or after `timeout` seconds from the start of the receive wait the call
returns `none` — the timer fires, the timeout is logged and the connection
is torn down on exit. -/
theorem timeout_receive_phase_only (timeout : Int) (action_id : String) (ok : Bool)
    (d d' : Int) (msgs : List (Int × Option PyJson))
    (h : ∀ m ∈ msgs, timeout ≤ m.1) :
    send_message_and_wait_for_response timeout action_id ⟨ok, d, msgs⟩ = none ∧
    send_message_and_wait_for_response timeout action_id ⟨ok, d, msgs⟩ =
      send_message_and_wait_for_response timeout action_id ⟨ok, d', msgs⟩ := by
  refine ⟨?_, rfl⟩
  unfold send_message_and_wait_for_response
  cases ok
  · rfl
  · show receiveLoop timeout action_id msgs = none
    cases msgs with
    | nil => rfl
    | cons hd tl =>
      obtain ⟨t, p⟩ := hd
      simp only [receiveLoop]
      rw [if_pos (h (t, p) (List.mem_cons_self _ _))]

/-- Witness for the amended C1: a lone response arriving 7 seconds into a
5-second receive wait is not returned, whether the earlier phase took 99
seconds or none. -/
theorem timeout_receive_phase_only_witness :
    send_message_and_wait_for_response 5 "x" ⟨true, 99, [(7, some (PyJson.str "x"))]⟩ = none ∧
    send_message_and_wait_for_response 5 "x" ⟨true, 99, [(7, some (PyJson.str "x"))]⟩ =
      send_message_and_wait_for_response 5 "x" ⟨true, 0, [(7, some (PyJson.str "x"))]⟩ :=
  timeout_receive_phase_only 5 "x" true 99 0 [(7, some (PyJson.str "x"))] (by
    intro m hm
    rw [List.mem_singleton] at hm
    subst hm
    decide)

/-- C10: an inbound payload that is valid JSON but not an object (so that
`.get` raises `AttributeError`, caught at line 106) is skipped: the wait
continues exactly as if the message had not arrived, and no exception
escapes the call. -/
theorem non_object_payload_skipped (timeout : Int) (action_id : String) (ok : Bool)
    (d t : Int) (j : PyJson) (rest : List (Int × Option PyJson))
    (hobj : isObj j = false) (ht : t < timeout) :
    send_message_and_wait_for_response timeout action_id ⟨ok, d, (t, some j) :: rest⟩ =
      send_message_and_wait_for_response timeout action_id ⟨ok, d, rest⟩ := by
  unfold send_message_and_wait_for_response
  cases ok
  · rfl
  · show receiveLoop timeout action_id ((t, some j) :: rest) = receiveLoop timeout action_id rest
    simp only [receiveLoop]
    rw [if_neg (not_le.mpr ht)]
    cases j with
    | obj fields => simp [isObj] at hobj
    | null => rfl
    | bool b => rfl
    | num n => rfl
    | str s => rfl
    | arr xs => rfl

/-- Witness for C10: a JSON array arriving 1 second in is skipped. -/
theorem non_object_payload_skipped_witness :
    send_message_and_wait_for_response 10 "a" ⟨true, 0, [(1, some (PyJson.arr []))]⟩ =
      send_message_and_wait_for_response 10 "a" ⟨true, 0, []⟩ :=
  non_object_payload_skipped 10 "a" true 0 1 (PyJson.arr []) [] rfl (by decide)

/-- Local constant `max_backoff = 300` of `setup_mqtt_listener` (line 180). -/
def max_backoff : Int := 300

/-- The listener's backoff computation (lines 186-188 and 235):
`min(2 ** connection_failures, max_backoff)` once there are failures, else 0. -/
def listener_backoff_time (connection_failures : Nat) : Int :=
  if 0 < connection_failures then min (2 ^ connection_failures) max_backoff else 0

/-- The gate of lines 190-196 of `setup_mqtt_listener`: the iteration
proceeds to a connection attempt unless an attempt was already recorded
(`last_connection_attempt > 0`) and the elapsed time is still below the
backoff time — in that case the loop only sleeps and re-checks, so no
attempt happens at this time. -/
def listener_attempt_allowed (s : BackoffState) (current_time : Int) : Bool :=
  !(decide (0 < s.last_connection_attempt) &&
    decide (current_time - s.last_connection_attempt <
      listener_backoff_time s.connection_failures))

/-- One completed iteration of the `while True` loop of
`setup_mqtt_listener` (lines 182-253), using the loop's local
`connection_failures` / `last_connection_attempt` variables as the state.
If the gate forbids an attempt the state is unchanged (the loop slept).
Otherwise the attempt time is recorded and the `try` block runs until an
exception is caught: `connected` tells whether connect+subscribe succeeded
first (in which case `connection_failures` was reset to 0 at lines 216-218
before the message stream later failed); either way the `except` clause then
increments the count by exactly 1 (lines 234, 249). -/
def listener_iteration (s : BackoffState) (now : Int) (connected : Bool) : BackoffState :=
  if listener_attempt_allowed s now then
    { last_connection_attempt := now,
      connection_failures := (if connected then 0 else s.connection_failures) + 1 }
  else s

/-- C7: a failed connection attempt (one the gate allowed, with the
connection never established) increments the listener's failure count by
exactly 1, and afterwards no further attempt is allowed until at least
`listener_backoff_time` of the new count — `min(2^count, 300)` seconds —
have elapsed since that attempt. -/
theorem listener_failure_backoff (s : BackoffState) (now : Int)
    (hallow : listener_attempt_allowed s now = true) (hnow : 0 < now) :
    (listener_iteration s now false).connection_failures = s.connection_failures + 1 ∧
    ∀ now' : Int, listener_attempt_allowed (listener_iteration s now false) now' = true →
      listener_backoff_time ((listener_iteration s now false).connection_failures) ≤
        now' - now := by
  have hst : listener_iteration s now false =
      ⟨now, s.connection_failures + 1⟩ := by
    unfold listener_iteration
    rw [if_pos hallow, if_neg (by simp)]
  refine ⟨by rw [hst], ?_⟩
  intro now' h'
  rw [hst] at h'
  unfold listener_attempt_allowed at h'
  simp only [Bool.not_eq_true', Bool.and_eq_false_iff, decide_eq_false_iff_not, not_lt] at h'
  rcases h' with h' | h'
  · exact absurd h' (not_le.mpr hnow)
  · simpa [hst] using h'

/-- Witness for C7: from the fresh state an attempt at time 5 fails, the
count becomes 1, and a re-attempt allowed at time 20 indeed satisfies
`backoff(1) = 2 ≤ 20 - 5`. -/
theorem listener_failure_backoff_witness :
    (listener_iteration ⟨0, 0⟩ 5 false).connection_failures = 0 + 1 ∧
    listener_backoff_time ((listener_iteration ⟨0, 0⟩ 5 false).connection_failures) ≤ 20 - 5 :=
  ⟨(listener_failure_backoff ⟨0, 0⟩ 5 (by decide) (by decide)).1,
   (listener_failure_backoff ⟨0, 0⟩ 5 (by decide) (by decide)).2 20 (by decide)⟩

/-- The message-processing loop of `setup_mqtt_listener` (lines 223-230):
each arriving payload is JSON-decoded and yielded to the consumer; a
`JSONDecodeError` (or any other processing exception) is logged and the loop
continues with the next message, the connection staying up. -/
def process_messages : List (Option PyJson) → List PyJson
  | [] => []
  | none :: rest => process_messages rest
  | some j :: rest => j :: process_messages rest

/-- C8: a payload that fails JSON decoding is skipped on its own, both by
the listener and by the request/response exchange: the listener's emitted
stream over a malformed head equals the stream over the tail, the emitted
stream is exactly the well-formed decodes in arrival order, and the exchange
over a malformed message continues as if it had not arrived. -/
theorem decode_fault_skipped (timeout : Int) (action_id : String) (ok : Bool)
    (d t : Int) (rest : List (Int × Option PyJson)) (ht : t < timeout) :
    (∀ msgs : List (Option PyJson),
      process_messages (none :: msgs) = process_messages msgs) ∧
    (∀ msgs : List (Option PyJson), process_messages msgs = msgs.filterMap id) ∧
    send_message_and_wait_for_response timeout action_id ⟨ok, d, (t, none) :: rest⟩ =
      send_message_and_wait_for_response timeout action_id ⟨ok, d, rest⟩ := by
  refine ⟨fun msgs => rfl, ?_, ?_⟩
  · intro msgs
    induction msgs with
    | nil => rfl
    | cons hd tl ih => cases hd <;> simp [process_messages, ih]
  · unfold send_message_and_wait_for_response
    cases ok
    · rfl
    · show receiveLoop timeout action_id ((t, none) :: rest) = receiveLoop timeout action_id rest
      simp only [receiveLoop]
      rw [if_neg (not_le.mpr ht)]

/-- Witness for C8: a malformed payload followed by a well-formed one emits
just the latter, and a malformed response message leaves the exchange
unchanged. -/
theorem decode_fault_skipped_witness :
    process_messages [none, some (PyJson.num 1)] = process_messages [some (PyJson.num 1)] ∧
    send_message_and_wait_for_response 10 "a" ⟨true, 0, [(1, none)]⟩ =
      send_message_and_wait_for_response 10 "a" ⟨true, 0, []⟩ :=
  ⟨(decode_fault_skipped 10 "a" true 0 1 [] (by decide)).1 [some (PyJson.num 1)],
   (decode_fault_skipped 10 "a" true 0 1 [] (by decide)).2.2⟩
